import Mathlib

/-!
Verification of the mlcraft CubeJS service layer
(`services/cubejs/index.js`): the driver configuration factory
(`driverFactory`), the query access filter (`queryRewrite`), the
auth-context setup (`setupAuthInfo`) and their helpers
(`addHttpPrefix`, `makeUrl`, `connParamValid`, `getColumnsArray`,
the falsy-key stripping of `dbParams`).

JavaScript runtime values are shallowly embedded as `JSValue`; JS
objects are association lists of fields in insertion order with
unique keys (JS objects cannot carry duplicate keys).  Numbers are
modelled as integers: every numeric value this code manipulates is a
port or similar integral value.  External collaborators — `jwt.verify`,
`JSON.parse`, the `DriverDependencies` lookup table plus dynamic
`import`, `findDataSource`, `getPermissions`, `buildSecurityContext` —
are parameters of the embedded functions, since their implementations
live outside this repository.
-/

/-- JavaScript values as used by the service layer.  Fractional
numbers, arrays-as-values and exotic objects do not occur in the
modelled code paths and are not represented. -/
inductive JSValue where
  | vNull
  | vUndefined
  | vBool (b : Bool)
  | vNum (n : Int)
  | vStr (s : String)
  | vObj (fields : List (String × JSValue))

/-- A JS object: field list in insertion order. -/
abbrev JSObj := List (String × JSValue)

/-- JavaScript truthiness: `null`, `undefined`, `false`, `0` and the
empty string are falsy; every object is truthy. -/
def truthy : JSValue → Bool
  | .vNull => false
  | .vUndefined => false
  | .vBool b => b
  | .vNum n => n != 0
  | .vStr s => !s.isEmpty
  | .vObj _ => true

/-- Property read `obj.k`: `undefined` when the key is absent. -/
def getField (l : JSObj) (k : String) : JSValue :=
  (l.lookup k).getD .vUndefined

/-- Property write `obj.k = v` (also the effect of an explicit key in
an object literal after a spread of `obj`): an existing key keeps its
position and gets the new value, a fresh key is appended.  Faithful
for JS objects, whose keys are unique. -/
def setField : JSObj → String → JSValue → JSObj
  | [], k, v => [(k, v)]
  | (a, b) :: t, k, v => if a == k then (k, v) :: t else (a, b) :: setField t k v

/-- Object spread `\x7b...a, ...b\x7d`: keys of `a` in order (values
overridden by `b` where present), then the keys of `b` not in `a`. -/
def jsSpread (a b : JSObj) : JSObj :=
  a.map (fun p => match b.lookup p.1 with
    | some v => (p.1, v)
    | none => p)
  ++ b.filter (fun p => !(a.any (fun q => q.1 == p.1)))

/-- The fields of a JS value when spread into / iterated as an object:
non-objects contribute no (relevant) own enumerable fields.  (Index
properties of primitive strings are not modelled; no modelled code
path spreads a string.) -/
def objFields : JSValue → JSObj
  | .vObj l => l
  | _ => []

/-- `Object.keys(x).length`: field count for objects, character count
for strings (string indices are its keys), `0` for the rest. -/
def objKeysLen : JSValue → Nat
  | .vObj l => l.length
  | .vStr s => s.length
  | _ => 0

/-- JS `String(v)` / template-literal coercion. -/
def jsToString : JSValue → String
  | .vNull => "null"
  | .vUndefined => "undefined"
  | .vBool true => "true"
  | .vBool false => "false"
  | .vNum n => toString n
  | .vStr s => s
  | .vObj _ => "[object Object]"

/-- Element coercion used by `Array.prototype.join`: `null` and
`undefined` become the empty string, everything else `String(v)`. -/
def joinElemStr : JSValue → String
  | .vNull => ""
  | .vUndefined => ""
  | v => jsToString v

/-- `[v1, ..., vn].join(sep)`. -/
def arrJoin (sep : String) (vs : List JSValue) : String :=
  String.intercalate sep (vs.map joinElemStr)

/-- The stripping of falsy-valued keys performed on the parsed
`dbParams` (source comment: "clean empty/false keys because of
sideeffects"). -/
def stripFalsy (l : JSObj) : JSObj :=
  l.filter (fun p => truthy p.2)

/-- Decimal value of a digit list (most significant first). -/
def digitsVal (cs : List Char) : Nat :=
  cs.foldl (fun a c => a * 10 + (c.toNat - 48)) 0

/-- JS `ToNumber` coercion, restricted to the integral values that can
occur here (`none` plays the role of `NaN`; fractional and
whitespace-padded numeric strings are not modelled). -/
def jsToNumber : JSValue → Option Int
  | .vNum n => some n
  | .vBool b => some (if b then 1 else 0)
  | .vNull => some 0
  | .vUndefined => none
  | .vStr s =>
    if s.data.isEmpty then some 0
    else if s.data.all Char.isDigit then some (digitsVal s.data)
    else
      match s.data with
      | '-' :: rest =>
        if !rest.isEmpty && rest.all Char.isDigit then some (-(digitsVal rest : Int))
        else none
      | _ => none
  | .vObj _ => none

/-- JS `parseInt(v)`: integer from the leading digits of the string
coercion; `none` plays the role of `NaN`. -/
def jsParseInt : JSValue → Option Int
  | .vNum n => some n
  | .vStr s =>
    match s.data with
    | '-' :: rest =>
      let ds := rest.takeWhile Char.isDigit
      if ds.isEmpty then none else some (-(digitsVal ds : Int))
    | cs =>
      let ds := cs.takeWhile Char.isDigit
      if ds.isEmpty then none else some (digitsVal ds)
  | _ => none

/-- JS `s.startsWith(pre)`, via character lists (structurally
recursive, so concrete instances evaluate). -/
def strStartsWith (s pre : String) : Bool :=
  pre.data.isPrefixOf s.data

/-- Models `addHttpPrefix` from the source: prepend `http://` unless
the host already starts with `http://` or `https://`. -/
def addHttpScheme (host : String) : String :=
  if !(strStartsWith host "http://") && !(strStartsWith host "https://") then
    "http://" ++ host
  else host

/-- `makeUrl(raw_host, port)`: `[addHttpPrefix(raw_host), port].join(':')`. -/
def makeUrl (raw_host : String) (port : JSValue) : String :=
  addHttpScheme raw_host ++ ":" ++ joinElemStr port

/-- The validation `port >= 0 && port < 65536` inside `connParamValid`
(JS relational operators coerce via `ToNumber`; comparisons with `NaN`
are false). -/
def connParamValid (v : JSValue) : Bool :=
  match jsToNumber v with
  | some n => decide (0 ≤ n) && decide (n < 65536)
  | none => false

/-- The message of the error `connParamValid` throws. -/
def connParamValidMsg (v : JSValue) : String :=
  "Port should be >= 0 and < 65536. Received " ++ jsToString v ++ "."

/-- The guarded port check of `driverFactory`:
`if (dbConfig.port) connParamValid(dbConfig.port)` throws (is caught,
yielding a fail-closed handle) exactly when this returns `true`. -/
def portFails (cfg : JSObj) : Bool :=
  truthy (getField cfg "port") && !connParamValid (getField cfg "port")

/-- Outcome of one type-specific `switch` case of `driverFactory`. -/
inductive SwitchResult where
  | ok (cfg : JSObj)
  | caught (msg : String)
  | thrown (msg : String)

/-- `JSON.parse` coerces its argument to a string first. -/
def jsonArg : JSValue → String
  | .vStr s => s
  | v => jsToString v

/-- The `bigquery` case: parse `dbConfig.keyFile` (own `try`/`catch`,
a failure is returned as a fail-closed handle) and spread the result
into a `credentials` field. -/
def bigqueryStep (jsonParse : String → Except String JSValue) (cfg : JSObj) :
    SwitchResult :=
  match jsonParse (jsonArg (getField cfg "keyFile")) with
  | .ok kf => .ok (setField cfg "credentials" (.vObj (objFields kf)))
  | .error m => .caught m

/-- The `mssql` case:
`\x7b...dbConfig, server: dbConfig.host, port: parseInt(dbConfig.port) || MSSQL_DEFAULT_PORT\x7d`.
`MSSQL_DEFAULT_PORT` is declared nowhere in the module, so whenever
`parseInt(dbConfig.port)` is falsy (`NaN` or `0`) evaluating it throws
an uncaught `ReferenceError`. -/
def mssqlStep (cfg : JSObj) : SwitchResult :=
  match jsParseInt (getField cfg "port") with
  | some n =>
    if n != 0 then
      .ok (setField (setField cfg "server" (getField cfg "host")) "port" (.vNum n))
    else .thrown "MSSQL_DEFAULT_PORT is not defined"
  | none => .thrown "MSSQL_DEFAULT_PORT is not defined"

/-- The `clickhouse` case: fresh object with
`auth = [user, password].filter(Boolean).join(':')`, a protocol picked
by the `ssl` flag and `queryOptions.database` defaulting to
`"default"`. -/
def clickhouseStep (cfg : JSObj) : JSObj :=
  [("host", getField cfg "host"),
   ("port", getField cfg "port"),
   ("auth", .vStr (arrJoin ":" (([getField cfg "user", getField cfg "password"]).filter (fun v => truthy v)))),
   ("protocol", .vStr (if truthy (getField cfg "ssl") then "https:" else "http:")),
   ("queryOptions", .vObj [("database",
      if truthy (getField cfg "database") then getField cfg "database" else .vStr "default")])]

/-- The `athena` case: rename the AWS-prefixed fields. -/
def athenaStep (cfg : JSObj) : JSObj :=
  setField (setField (setField (setField cfg
    "accessKeyId" (getField cfg "awsKey"))
    "secretAccessKey" (getField cfg "awsSecret"))
    "S3OutputLocation" (getField cfg "awsS3OutputLocation"))
    "region" (getField cfg "awsRegion")

/-- The `elasticsearch` case: spread plus `queryFormat`, `url` and a
nested `auth` object; when both `apiId` and `apiKey` are truthy the
`auth` object is re-built (spread of the just-built `auth`) with an
extra `apiKey` sub-object.  The source reads `dbConfig?.apiId`,
`dbConfig?.apiKey` and `dbConfig.auth` from the new spread object;
since the spread only overrides `queryFormat`, `url` and `auth`, the
first two coincide with the original config's fields and `auth` is the
username/password object just written, which is how they are written
here. -/
def esStep (cfg : JSObj) : JSObj :=
  let c := setField (setField (setField cfg
    "queryFormat" (.vStr "json"))
    "url" (getField cfg "url"))
    "auth" (.vObj [("username", getField cfg "username"),
                   ("password", getField cfg "password")])
  if truthy (getField cfg "apiId") && truthy (getField cfg "apiKey") then
    setField c "auth" (.vObj [("username", getField cfg "username"),
                              ("password", getField cfg "password"),
                              ("apiKey", .vObj [("id", getField cfg "apiId"),
                                                ("api_key", getField cfg "apiKey")])])
  else c

/-- The `snowflake` case:
`account = [dbConfig.orgId, dbConfig.accountId].join('-')`. -/
def snowflakeStep (cfg : JSObj) : JSObj :=
  setField cfg "account"
    (.vStr (arrJoin "-" [getField cfg "orgId", getField cfg "accountId"]))

/-- The `druid` / `ksql` cases:
`dbConfig.url = makeUrl(dbConfig.host, dbConfig.port)`.  When `host`
is not a string, `host.startsWith` inside `addHttpPrefix` throws an
uncaught `TypeError`. -/
def urlStep (cfg : JSObj) : SwitchResult :=
  match getField cfg "host" with
  | .vStr h => .ok (setField cfg "url" (.vStr (makeUrl h (getField cfg "port"))))
  | .vUndefined => .thrown "Cannot read properties of undefined (reading 'startsWith')"
  | .vNull => .thrown "Cannot read properties of null (reading 'startsWith')"
  | _ => .thrown "host.startsWith is not a function"

/-- The `firebolt` case: nest credentials under `connection`. -/
def fireboltStep (cfg : JSObj) : JSObj :=
  setField cfg "connection" (.vObj
    [("database", getField cfg "database"),
     ("username", getField cfg "username"),
     ("password", getField cfg "password"),
     ("engineName", getField cfg "engineName")])

/-- The `switch (dbType)` of `driverFactory`.  Note the missing
`break` in the source after the `elasticsearch` case: control falls
through into the `snowflake` case, so an elasticsearch config also
receives the composed `account` field. -/
def applySwitch (jsonParse : String → Except String JSValue)
    (dbType : String) (cfg : JSObj) : SwitchResult :=
  if dbType == "bigquery" then bigqueryStep jsonParse cfg
  else if dbType == "mssql" then mssqlStep cfg
  else if dbType == "clickhouse" then .ok (clickhouseStep cfg)
  else if dbType == "athena" then .ok (athenaStep cfg)
  else if dbType == "elasticsearch" then .ok (snowflakeStep (esStep cfg))
  else if dbType == "snowflake" then .ok (snowflakeStep cfg)
  else if dbType == "druid" then urlStep cfg
  else if dbType == "ksql" then urlStep cfg
  else if dbType == "firebolt" then .ok (fireboltStep cfg)
  else .ok cfg

/-- Result of a `driverFactory` call.  `failClosed msg` is the handle
returned by `driverError`, whose `tablesSchema` and `testConnection`
both throw `msg`; `okDriver` is an instantiated driver (drivers
themselves are external black boxes, so only the type tag and the
config handed to the constructor are recorded); `uncaught` is an
exception that escapes `driverFactory` to its caller. -/
inductive DriverResult where
  | failClosed (msg : String)
  | okDriver (dbType : String) (cfg : JSObj)
  | uncaught (msg : String)

/-- The fields of the security context that `driverFactory` reads.
`error` is the message carried by `securityContext.error` (`none`
when absent/falsy). -/
structure SecurityContext where
  dbParams : JSValue := .vUndefined
  dbType : String := ""
  error : Option String := none

/-- `driverFactory(\x7bsecurityContext\x7d)` from
`services/cubejs/index.js`.  `deps t` tells whether
`DriverDependencies[t]` exists and the dynamic import of the driver
module succeeds, `importErr t` is the message of the import failure
otherwise, and `jsonParse` models `JSON.parse`. -/
def driverFactory (deps : String → Bool) (importErr : String → String)
    (jsonParse : String → Except String JSValue) (ctx : SecurityContext) :
    DriverResult :=
  if !truthy ctx.dbParams || objKeysLen ctx.dbParams == 0 then
    .failClosed "Datasource credentials not found or incorrect"
  else
    match (match ctx.dbParams with
           | .vStr s => jsonParse s
           | .vObj l => .ok (.vObj l)
           | _ => .error "Invalid dbParams type: expected a string or an object") with
    | .error m => .failClosed m
    | .ok parsed =>
      let dbConfig := stripFalsy (objFields parsed)
      if portFails dbConfig then
        .failClosed (connParamValidMsg (getField dbConfig "port"))
      else
        match ctx.error with
        | some e => .failClosed e
        | none =>
          match applySwitch jsonParse ctx.dbType dbConfig with
          | .caught m => .failClosed m
          | .thrown m => .uncaught m
          | .ok cfg =>
            if deps ctx.dbType then .okDriver ctx.dbType cfg
            else .failClosed (importErr ctx.dbType)

/-- A demo `DriverDependencies`/import oracle for concrete runs: the
driver types this file exercises all resolve. -/
def demoDeps : String → Bool := fun t =>
  ["postgres", "mssql", "bigquery", "clickhouse", "athena",
   "elasticsearch", "snowflake", "druid", "ksql", "firebolt"].contains t

/-- A demo import-failure message for concrete runs. -/
def demoImportErr : String → String := fun t => "Cannot find module for " ++ t

/-- A demo `JSON.parse` for concrete runs that never reach a parse, or
that must fail to parse. -/
def demoParseFail : String → Except String JSValue :=
  fun _ => .error "Unexpected token in JSON"

/-- A cube (and likewise a query, which `getColumnsArray` treats the
same way): named dimensions, measures and segments.  A field absent in
JS corresponds to the empty list (`cube?.dimensions || []`). -/
structure Cube where
  dimensions : List String := []
  measures : List String := []
  segments : List String := []
deriving DecidableEq

/-- `getColumnsArray` from the source: all referenced names, in
dimension/measure/segment order. -/
def getColumnsArray (c : Cube) : List String :=
  c.dimensions ++ c.measures ++ c.segments

/-- The access-control config:
`config.datasources` maps a datasource id to its granted cubes
(`config?.datasources?.[dataSourceId]?.cubes`); a missing entry and an
entry whose `cubes` field is absent both read as `undefined` and are
modelled by a failing lookup. -/
structure AccessConfig where
  datasources : List (String × List (String × Cube)) := []

/-- A `getPermissions(userId)` result: `\x7brole, config\x7d`
(`none` models an absent/falsy field). -/
structure Permissions where
  role : Option String := none
  config : Option AccessConfig := none

/-- The fields of the security context that `queryRewrite` reads. -/
structure QRCtx where
  dataSourceId : String := ""
  userId : String := ""
  role : Option String := none
  config : Option AccessConfig := none

/-- The permission pair `queryRewrite` works with:
`securityContext?.config ? securityContext : await getPermissions(userId)` —
the context's own `\x7bconfig, role\x7d` when the context carries a
(truthy) config, the freshly fetched pair otherwise. -/
def effectivePerms (ctx : QRCtx) (fetched : Permissions) :
    Option String × Option AccessConfig :=
  match ctx.config with
  | some c => (ctx.role, some c)
  | none => (fetched.role, fetched.config)

/-- `queryRewrite(query, \x7bsecurityContext\x7d)` from the source.
`fetched` is the result of the `await getPermissions(userId)` call
taken when the context carries no config.  `Except.error` is the
thrown `Error`'s message. -/
def queryRewrite (q : Cube) (ctx : QRCtx) (fetched : Permissions) :
    Except String Cube :=
  let role := (effectivePerms ctx fetched).1
  let config := (effectivePerms ctx fetched).2
  if role = some "owner" ∨ role = some "admin" then .ok q
  else match config with
  | none => .ok q
  | some cfg =>
    match cfg.datasources.lookup ctx.dataSourceId with
    | none => .error "No access to datasource!"
    | some cubes =>
      let queryNames := getColumnsArray q
      let accessNames := (cubes.map (fun p => getColumnsArray p.2)).flatten
      match queryNames.find? (fun n => !accessNames.contains n) with
      | some cn => .error ("No access to " ++ cn ++ " cube!")
      | none => .ok q

/-- The decoded JWT payload fields `setupAuthInfo` destructures
(absent fields read as `undefined`). -/
structure JwtPayload where
  dataSourceId : JSValue := .vUndefined
  userId : JSValue := .vUndefined

/-- `setupAuthInfo(req, auth)` from the source, returning the
security context it attaches to the request.  `verify` is the outcome
of `jwt.verify(cubejsAuthToken, CUBEJS_SECRET)` (`Except.error` its
thrown error's message; `Except.ok none` a falsy decoded payload,
handled by `jwtDecoded || \x7b\x7d`), `dataSource` the
`findDataSource` result (`none` for `null`), `permissions` the
`getPermissions(userId)` result's fields, `builtCtx` the
`buildSecurityContext(dataSource)` result and `authToken` the
forwarded `x-hasura-authorization` header. -/
def setupAuthInfo (verify : Except String (Option JwtPayload))
    (dataSource : Option JSObj) (permissions : JSObj) (builtCtx : JSObj)
    (authToken : JSValue) : JSObj :=
  match verify with
  | .error m => [("error", .vStr m)]
  | .ok payload =>
    let p := payload.getD {}
    if !truthy p.dataSourceId then [("error", .vStr "Provide dataSourceId")]
    else
      let idOk := match dataSource with
        | none => false
        | some rec => truthy (getField rec "id")
      if !idOk then
        [("error", .vStr ("Source \"" ++ jsToString p.dataSourceId ++ "\" not found"))]
      else
        jsSpread (jsSpread
          [("dataSourceId", p.dataSourceId),
           ("userId", p.userId),
           ("authToken", authToken)] permissions) builtCtx

theorem lookup_setField_self (l : JSObj) (k : String) (v : JSValue) :
    (setField l k v).lookup k = some v := by
  induction l with
  | nil => simp [setField, List.lookup]
  | cons p t ih =>
    obtain ⟨a, b⟩ := p
    by_cases h : a = k
    · subst h
      simp [setField, List.lookup]
    · have e1 : (a == k) = false := beq_eq_false_iff_ne.mpr h
      have e2 : (k == a) = false := beq_eq_false_iff_ne.mpr (Ne.symm h)
      simp [setField, List.lookup, e1, e2, ih]

theorem lookup_setField_ne (l : JSObj) (k k' : String) (v : JSValue)
    (h : k' ≠ k) : (setField l k v).lookup k' = l.lookup k' := by
  have h1 : (k' == k) = false := beq_eq_false_iff_ne.mpr h
  have h2 : (k == k') = false := beq_eq_false_iff_ne.mpr (Ne.symm h)
  induction l with
  | nil => simp [setField, List.lookup, h1, h2]
  | cons p t ih =>
    obtain ⟨a, b⟩ := p
    by_cases ha : a = k
    · subst ha
      simp [setField, List.lookup, h1, h2]
    · have e1 : (a == k) = false := beq_eq_false_iff_ne.mpr ha
      by_cases ha' : a = k'
      · subst ha'
        simp [setField, List.lookup, e1]
      · have e2 : (k' == a) = false := beq_eq_false_iff_ne.mpr (Ne.symm ha')
        simp [setField, List.lookup, e1, e2, ih]

theorem getField_setField_self (l : JSObj) (k : String) (v : JSValue) :
    getField (setField l k v) k = v := by
  simp [getField, lookup_setField_self]

theorem getField_setField_ne (l : JSObj) (k k' : String) (v : JSValue)
    (h : k' ≠ k) : getField (setField l k v) k' = getField l k' := by
  simp [getField, lookup_setField_ne _ _ _ _ h]

theorem lookup_eq_none_of_not_mem_keys (l : JSObj) (k : String)
    (h : k ∉ l.map Prod.fst) : l.lookup k = none := by
  induction l with
  | nil => simp [List.lookup]
  | cons p t ih =>
    obtain ⟨a, b⟩ := p
    simp only [List.map_cons, List.mem_cons] at h
    push_neg at h
    have e1 : (k == a) = false := beq_eq_false_iff_ne.mpr h.1
    simp [List.lookup, e1, ih h.2]

theorem lookup_stripFalsy (l : JSObj) (k : String)
    (hnd : (l.map Prod.fst).Nodup) :
    (stripFalsy l).lookup k =
      (l.lookup k).bind (fun v => if truthy v then some v else none) := by
  induction l with
  | nil => simp [stripFalsy, List.lookup]
  | cons p t ih =>
    obtain ⟨a, b⟩ := p
    simp only [List.map_cons, List.nodup_cons] at hnd
    have ih' := ih hnd.2
    simp only [stripFalsy] at ih'
    by_cases h : a = k
    · have e1 : (k == a) = true := beq_iff_eq.mpr h.symm
      by_cases hb : truthy b
      · simp [stripFalsy, List.filter_cons, hb, List.lookup, e1]
      · have hk : k ∉ (t.filter (fun p => truthy p.2)).map Prod.fst := by
          intro hmem
          rcases List.mem_map.mp hmem with ⟨q, hq, hq1⟩
          refine hnd.1 ?_
          rw [h]
          exact List.mem_map.mpr ⟨q, List.mem_of_mem_filter hq, hq1⟩
        simp [stripFalsy, List.filter_cons, hb, List.lookup, e1,
          lookup_eq_none_of_not_mem_keys _ _ hk]
    · have e1 : (k == a) = false := beq_eq_false_iff_ne.mpr (Ne.symm h)
      by_cases hb : truthy b
      · simp [stripFalsy, List.filter_cons, hb, List.lookup, e1, ih']
      · simp [stripFalsy, List.filter_cons, hb, List.lookup, e1, ih']

theorem stripFalsy_idem (l : JSObj) : stripFalsy (stripFalsy l) = stripFalsy l := by
  induction l with
  | nil => rfl
  | cons p t ih =>
    by_cases h : truthy p.2
    · simp only [stripFalsy, List.filter_cons, h, if_true] at ih ⊢
      simp [h, ih]
    · simp only [stripFalsy, List.filter_cons, h] at ih ⊢
      simp [h, ih]

theorem mem_stripFalsy_truthy (l : JSObj) (p : String × JSValue)
    (h : p ∈ stripFalsy l) : truthy p.2 = true :=
  (List.mem_filter.mp h).2

theorem driverFactory_obj (deps : String → Bool) (importErr : String → String)
    (jsonParse : String → Except String JSValue) (t : String) (l : JSObj)
    (hne : l ≠ []) (hport : portFails (stripFalsy l) = false) :
    driverFactory deps importErr jsonParse { dbParams := .vObj l, dbType := t } =
      (match applySwitch jsonParse t (stripFalsy l) with
       | .caught m => .failClosed m
       | .thrown m => .uncaught m
       | .ok cfg => if deps t then .okDriver t cfg
                    else .failClosed (importErr t)) := by
  have hlen : (l.length == 0) = false := by
    simp [hne]
  simp [driverFactory, truthy, objKeysLen, objFields, hlen, hport]

theorem driverFactory_obj_portfail (deps : String → Bool)
    (importErr : String → String) (jsonParse : String → Except String JSValue)
    (t : String) (l : JSObj) (hne : l ≠ [])
    (hport : portFails (stripFalsy l) = true) :
    driverFactory deps importErr jsonParse { dbParams := .vObj l, dbType := t } =
      .failClosed (connParamValidMsg (getField (stripFalsy l) "port")) := by
  have hlen : (l.length == 0) = false := by
    simp [hne]
  simp [driverFactory, truthy, objKeysLen, objFields, hlen, hport]

theorem applySwitch_postgres (jsonParse : String → Except String JSValue)
    (cfg : JSObj) : applySwitch jsonParse "postgres" cfg = .ok cfg := rfl

theorem applySwitch_elasticsearch (jsonParse : String → Except String JSValue)
    (cfg : JSObj) :
    applySwitch jsonParse "elasticsearch" cfg = .ok (snowflakeStep (esStep cfg)) := rfl

theorem applySwitch_snowflake (jsonParse : String → Except String JSValue)
    (cfg : JSObj) :
    applySwitch jsonParse "snowflake" cfg = .ok (snowflakeStep cfg) := rfl

theorem applySwitch_druid (jsonParse : String → Except String JSValue)
    (cfg : JSObj) : applySwitch jsonParse "druid" cfg = urlStep cfg := rfl

theorem applySwitch_ksql (jsonParse : String → Except String JSValue)
    (cfg : JSObj) : applySwitch jsonParse "ksql" cfg = urlStep cfg := rfl

theorem getField_snowflakeStep_account (cfg : JSObj) :
    getField (snowflakeStep cfg) "account" =
      .vStr (arrJoin "-" [getField cfg "orgId", getField cfg "accountId"]) := by
  simp [snowflakeStep, getField_setField_self]

theorem getField_snowflakeStep_ne (cfg : JSObj) (k : String)
    (h : k ≠ "account") : getField (snowflakeStep cfg) k = getField cfg k := by
  simp [snowflakeStep, getField_setField_ne _ _ _ _ h]

theorem getField_esStep_ne (cfg : JSObj) (k : String)
    (h1 : k ≠ "queryFormat") (h2 : k ≠ "url") (h3 : k ≠ "auth") :
    getField (esStep cfg) k = getField cfg k := by
  simp only [esStep]
  split
  · rw [getField_setField_ne _ _ _ _ h3, getField_setField_ne _ _ _ _ h3,
      getField_setField_ne _ _ _ _ h2, getField_setField_ne _ _ _ _ h1]
  · rw [getField_setField_ne _ _ _ _ h3, getField_setField_ne _ _ _ _ h2,
      getField_setField_ne _ _ _ _ h1]

theorem lookup_eq_of_mem_keys_nodup (l : JSObj) (k : String) (v : JSValue)
    (hnd : (l.map Prod.fst).Nodup) (h : (k, v) ∈ l) : l.lookup k = some v := by
  induction l with
  | nil => cases h
  | cons p t ih =>
    obtain ⟨a, b⟩ := p
    simp only [List.map_cons, List.nodup_cons] at hnd
    rcases List.mem_cons.mp h with h1 | h1
    · cases h1
      simp [List.lookup]
    · have hk : k ≠ a := by
        intro e
        subst e
        exact hnd.1 (List.mem_map.mpr ⟨(k, v), h1, rfl⟩)
      have e1 : (k == a) = false := beq_eq_false_iff_ne.mpr hk
      simp [List.lookup, e1, ih hnd.2 h1]

theorem urlStep_literal (h : String) (p : Int) :
    urlStep [("host", .vStr h), ("port", .vNum p)] =
      .ok [("host", .vStr h), ("port", .vNum p),
           ("url", .vStr (makeUrl h (.vNum p)))] := by
  simp [urlStep, getField, List.lookup, setField]

theorem getField_esStep_auth (cfg : JSObj) :
    getField (esStep cfg) "auth" =
      (if truthy (getField cfg "apiId") && truthy (getField cfg "apiKey") then
        .vObj [("username", getField cfg "username"),
               ("password", getField cfg "password"),
               ("apiKey", .vObj [("id", getField cfg "apiId"),
                                 ("api_key", getField cfg "apiKey")])]
      else
        .vObj [("username", getField cfg "username"),
               ("password", getField cfg "password")]) := by
  simp only [esStep]
  split
  · rw [getField_setField_self]
  · rw [getField_setField_self]

/-- A context with a non-elevated role and a config granting the
dimensions `a` and `b` on cube `X` of datasource `ds1`, used for
concrete runs of the query filter. -/
def demoQRCtx : QRCtx :=
  { dataSourceId := "ds1", role := some "member",
    config := some { datasources :=
      [("ds1", [("X", { dimensions := ["a", "b"] })])] } }

/-- C9: for dbType `clickhouse` with parameters
`user:"u", password:"p", host:"h", port:9000, ssl:true`, `configure`
produces exactly the driver config
`host:"h", port:9000, auth:"u:p", protocol:"https:",
queryOptions:\x7bdatabase:"default"\x7d`. -/
theorem claim_C9_clickhouse_scenario :
    driverFactory demoDeps demoImportErr demoParseFail
      { dbParams := .vObj [("user", .vStr "u"), ("password", .vStr "p"),
                           ("host", .vStr "h"), ("port", .vNum 9000),
                           ("ssl", .vBool true)],
        dbType := "clickhouse" } =
    .okDriver "clickhouse"
      [("host", .vStr "h"), ("port", .vNum 9000), ("auth", .vStr "u:p"),
       ("protocol", .vStr "https:"),
       ("queryOptions", .vObj [("database", .vStr "default")])] := by rfl

/-- C4: a token that fails signature verification yields a security
context holding exactly the one field `error` carrying the
verification error message, whatever the datasource lookup, permission
set, built context and forwarded auth token would have been; the
function returns normally (nothing is raised past the `catch`). -/
theorem claim_C4_verify_failure_error_only (m : String)
    (dataSource : Option JSObj) (permissions builtCtx : JSObj)
    (authToken : JSValue) :
    setupAuthInfo (.error m) dataSource permissions builtCtx authToken =
      [("error", .vStr m)] := rfl

/-- C7: stripping the parsed parameter mapping removes every
falsy-valued field (so such a field is absent from the resulting
config, and only truthy-valued fields remain), and the stripping is
idempotent. -/
theorem claim_C7_strip_falsy (l : JSObj) (hnd : (l.map Prod.fst).Nodup) :
    (∀ k v, (k, v) ∈ l → truthy v = false → (stripFalsy l).lookup k = none)
    ∧ (∀ p ∈ stripFalsy l, truthy p.2 = true)
    ∧ stripFalsy (stripFalsy l) = stripFalsy l := by
  refine ⟨?_, fun p hp => mem_stripFalsy_truthy l p hp, stripFalsy_idem l⟩
  intro k v hmem hfal
  rw [lookup_stripFalsy l k hnd, lookup_eq_of_mem_keys_nodup l k v hnd hmem]
  simp [hfal]

/-- Witness for C7 at a concrete mapping: the falsy-valued field `b`
is absent after stripping. -/
theorem claim_C7_strip_falsy_witness :
    (stripFalsy [("a", JSValue.vStr "x"), ("b", JSValue.vStr "")]).lookup "b"
      = none :=
  (claim_C7_strip_falsy [("a", JSValue.vStr "x"), ("b", JSValue.vStr "")]
    (by simp)).1 "b" (JSValue.vStr "") (by simp) (by rfl)

/-- C10: a non-elevated role whose context carries a config with no
cube entry for the context's dataSourceId is rejected with
`No access to datasource!`, for every query (in particular one
referencing nothing at all). -/
theorem claim_C10_no_datasource_entry (q : Cube) (ctx : QRCtx)
    (fetched : Permissions) (cfg : AccessConfig) (r : String)
    (hcfg : ctx.config = some cfg) (hrole : ctx.role = some r)
    (h1 : r ≠ "owner") (h2 : r ≠ "admin")
    (hds : cfg.datasources.lookup ctx.dataSourceId = none) :
    queryRewrite q ctx fetched = .error "No access to datasource!" := by
  simp [queryRewrite, effectivePerms, hcfg, hrole, h1, h2, hds]

/-- Witness for C10: an empty query against a config that only grants
another datasource. -/
theorem claim_C10_no_datasource_entry_witness :
    queryRewrite {}
      { dataSourceId := "ds1", role := some "member",
        config := some { datasources := [("other", [])] } } {} =
      .error "No access to datasource!" :=
  claim_C10_no_datasource_entry {} _ {} _ "member" rfl rfl
    (by decide) (by decide) (by rfl)

/-- C3 counterexample: a security context whose own role is `admin`
but which carries no access-control config.  `queryRewrite` ignores
the context's role, re-fetches permissions, obtains a non-elevated
role together with a config lacking the datasource, and throws — so
the claim's unconditional pass-through for elevated-role or
config-less contexts fails. -/
theorem claim_C3_counterexample :
    queryRewrite {}
      { dataSourceId := "ds1", role := some "admin", config := none }
      { role := some "member", config := some { datasources := [] } } =
      .error "No access to datasource!" := by rfl

/-- C3 (amended): `queryRewrite` returns the query unchanged without
raising whenever the effective permission pair — the context's own
role and config when the context carries a config, otherwise the
freshly fetched `getPermissions` pair — has the role `owner` or
`admin`, or has no config. -/
theorem claim_C3_pass_through (q : Cube) (ctx : QRCtx) (fetched : Permissions)
    (h : (effectivePerms ctx fetched).1 = some "owner"
       ∨ (effectivePerms ctx fetched).1 = some "admin"
       ∨ (effectivePerms ctx fetched).2 = none) :
    queryRewrite q ctx fetched = .ok q := by
  rcases h with h | h | h
  · simp [queryRewrite, h]
  · simp [queryRewrite, h]
  · simp [queryRewrite, h]

/-- Witness for the amended C3: an owner context carrying a config
passes an empty query through unchanged. -/
theorem claim_C3_pass_through_witness :
    queryRewrite {}
      { dataSourceId := "d", role := some "owner",
        config := some { datasources := [] } } {} = .ok {} :=
  claim_C3_pass_through {} _ {} (Or.inl rfl)

/-- C2: for a context with a non-elevated role carrying a config with
a cube table for the query's datasource, a query whose referenced
dimension/measure/segment names all lie in the union of granted column
names across that datasource's cubes passes unchanged, and a query
referencing a name outside that union fails naming the first offending
name (`No access to <name> cube!`). -/
theorem claim_C2_allowlist_filter (q : Cube) (ctx : QRCtx)
    (fetched : Permissions) (cfg : AccessConfig)
    (cubes : List (String × Cube)) (r : String)
    (hcfg : ctx.config = some cfg) (hrole : ctx.role = some r)
    (h1 : r ≠ "owner") (h2 : r ≠ "admin")
    (hds : cfg.datasources.lookup ctx.dataSourceId = some cubes) :
    ((∀ n ∈ getColumnsArray q,
        n ∈ (cubes.map (fun p => getColumnsArray p.2)).flatten) →
      queryRewrite q ctx fetched = .ok q)
    ∧ (∀ c, (getColumnsArray q).find?
          (fun n => !((cubes.map (fun p => getColumnsArray p.2)).flatten).contains n)
            = some c →
        queryRewrite q ctx fetched = .error ("No access to " ++ c ++ " cube!")) := by
  have hqr : queryRewrite q ctx fetched =
      (match (getColumnsArray q).find?
          (fun n => !((cubes.map (fun p => getColumnsArray p.2)).flatten).contains n) with
       | some cn => .error ("No access to " ++ cn ++ " cube!")
       | none => .ok q) := by
    simp [queryRewrite, effectivePerms, hcfg, hrole, h1, h2, hds]
  constructor
  · intro hall
    have hfind : (getColumnsArray q).find?
        (fun n => !((cubes.map (fun p => getColumnsArray p.2)).flatten).contains n)
          = none := by
      apply List.find?_eq_none.mpr
      intro n hn
      simp [hall n hn]
    rw [hqr, hfind]
  · intro c hc
    rw [hqr, hc]

/-- Witness for C2: against the config granting `a` and `b` on cube
`X` of `ds1`, the query referencing `a` and `b` passes unchanged and
the query referencing `c` fails naming `c`. -/
theorem claim_C2_allowlist_filter_witness :
    queryRewrite { measures := ["a", "b"] } demoQRCtx {} =
        .ok { measures := ["a", "b"] }
    ∧ queryRewrite { dimensions := ["c"] } demoQRCtx {} =
        .error "No access to c cube!" := by
  constructor
  · exact (claim_C2_allowlist_filter { measures := ["a", "b"] } demoQRCtx {}
      _ _ "member" rfl rfl (by decide) (by decide) (by rfl)).1 (by decide)
  · exact (claim_C2_allowlist_filter { dimensions := ["c"] } demoQRCtx {}
      _ _ "member" rfl rfl (by decide) (by decide) (by rfl)).2 "c" (by rfl)

/-- C1 (code-bug evidence): for an `mssql` context whose parameters
carry no usable port, the object literal of the `mssql` case evaluates
the undeclared identifier `MSSQL_DEFAULT_PORT`, and the resulting
`ReferenceError` escapes `driverFactory` uncaught — no fail-closed
handle is returned, contradicting the fail-closed contract. -/
theorem claim_C1_mssql_uncaught :
    driverFactory demoDeps demoImportErr demoParseFail
      { dbParams := .vObj [("host", .vStr "h")], dbType := "mssql" } =
    .uncaught "MSSQL_DEFAULT_PORT is not defined" := by rfl

/-- C5 counterexample: a plain elasticsearch configuration.  Because
the `elasticsearch` case of the `switch` has no `break`, control falls
through into the `snowflake` case and the resulting config carries an
`account` field (`[undefined, undefined].join('-') = "-"`) — the
snowflake account composition is applied to an elasticsearch config,
contradicting the claim. -/
theorem claim_C5_counterexample :
    driverFactory demoDeps demoImportErr demoParseFail
      { dbParams := .vObj [("host", .vStr "h"), ("username", .vStr "u"),
                           ("password", .vStr "p")],
        dbType := "elasticsearch" } =
    .okDriver "elasticsearch"
      [("host", .vStr "h"), ("username", .vStr "u"), ("password", .vStr "p"),
       ("queryFormat", .vStr "json"), ("url", .vUndefined),
       ("auth", .vObj [("username", .vStr "u"), ("password", .vStr "p")]),
       ("account", .vStr "-")] := by rfl

/-- C5 (amended): for dbType `elasticsearch`, `configure` applies the
elasticsearch derivation — nested `auth` with username and password,
plus an `apiKey` sub-object iff both an API id and an API key are
present — and then, because the `switch` case falls through, also the
snowflake `account` composition (`orgId`-`accountId` joined by a
dash); the account composition is thus applied to elasticsearch
configs as well, not only to snowflake ones. -/
theorem claim_C5_es_fallthrough (l : JSObj) (deps : String → Bool)
    (importErr : String → String) (jsonParse : String → Except String JSValue)
    (hne : l ≠ []) (hport : portFails (stripFalsy l) = false)
    (hdeps : deps "elasticsearch" = true) :
    driverFactory deps importErr jsonParse
        { dbParams := .vObj l, dbType := "elasticsearch" } =
      .okDriver "elasticsearch" (snowflakeStep (esStep (stripFalsy l)))
    ∧ getField (snowflakeStep (esStep (stripFalsy l))) "account" =
        .vStr (arrJoin "-" [getField (stripFalsy l) "orgId",
                            getField (stripFalsy l) "accountId"])
    ∧ getField (snowflakeStep (esStep (stripFalsy l))) "auth" =
        (if truthy (getField (stripFalsy l) "apiId")
            && truthy (getField (stripFalsy l) "apiKey") then
          .vObj [("username", getField (stripFalsy l) "username"),
                 ("password", getField (stripFalsy l) "password"),
                 ("apiKey", .vObj [("id", getField (stripFalsy l) "apiId"),
                                   ("api_key", getField (stripFalsy l) "apiKey")])]
        else
          .vObj [("username", getField (stripFalsy l) "username"),
                 ("password", getField (stripFalsy l) "password")]) := by
  refine ⟨?_, ?_, ?_⟩
  · rw [driverFactory_obj _ _ _ _ _ hne hport, applySwitch_elasticsearch]
    simp [hdeps]
  · rw [getField_snowflakeStep_account,
      getField_esStep_ne _ _ (by decide) (by decide) (by decide),
      getField_esStep_ne _ _ (by decide) (by decide) (by decide)]
  · rw [getField_snowflakeStep_ne _ _ (by decide), getField_esStep_auth]

/-- Witness for the amended C5 at a concrete elasticsearch config
carrying `orgId` and `accountId`: the driver config is the
elasticsearch derivation followed by the snowflake account step. -/
theorem claim_C5_es_fallthrough_witness :
    driverFactory demoDeps demoImportErr demoParseFail
      { dbParams := .vObj [("orgId", .vStr "o"), ("accountId", .vStr "a"),
                           ("username", .vStr "u"), ("password", .vStr "p")],
        dbType := "elasticsearch" } =
      .okDriver "elasticsearch"
        (snowflakeStep (esStep (stripFalsy
          [("orgId", .vStr "o"), ("accountId", .vStr "a"),
           ("username", .vStr "u"), ("password", .vStr "p")]))) :=
  (claim_C5_es_fallthrough
    [("orgId", .vStr "o"), ("accountId", .vStr "a"),
     ("username", .vStr "u"), ("password", .vStr "p")]
    demoDeps demoImportErr demoParseFail
    (List.cons_ne_nil _ _) (by rfl) (by rfl)).1

/-- C6: for a parsed parameter mapping (unique keys) carrying a port
value `p`, `configure` over a pass-through driver type returns the
fail-closed handle carrying the port-validation error if and only if
`p < 0` or `p ≥ 65536` (in particular `p = 0` is stripped as falsy and
accepted). -/
theorem claim_C6_port_validation (l : JSObj) (p : Int)
    (deps : String → Bool) (importErr : String → String)
    (jsonParse : String → Except String JSValue)
    (hnd : (l.map Prod.fst).Nodup)
    (hport : l.lookup "port" = some (.vNum p))
    (hdeps : deps "postgres" = true) :
    (driverFactory deps importErr jsonParse
        { dbParams := .vObj l, dbType := "postgres" } =
      .failClosed (connParamValidMsg (.vNum p)))
    ↔ (p < 0 ∨ 65536 ≤ p) := by
  have hne : l ≠ [] := by
    intro e
    rw [e] at hport
    simp [List.lookup] at hport
  have hsl : (stripFalsy l).lookup "port" =
      (if truthy (.vNum p) then some (JSValue.vNum p) else none) := by
    rw [lookup_stripFalsy l _ hnd, hport]
    rfl
  by_cases hz : p = 0
  · subst hz
    have hs : (stripFalsy l).lookup "port" = none := by
      simp [hsl, truthy]
    have hpf : portFails (stripFalsy l) = false := by
      simp [portFails, getField, hs, truthy]
    rw [driverFactory_obj _ _ _ _ _ hne hpf, applySwitch_postgres]
    simp [hdeps]
  · have htr : truthy (.vNum p) = true := by
      simp [truthy, hz]
    have hget : getField (stripFalsy l) "port" = .vNum p := by
      simp [getField, hsl, htr]
    by_cases hr : p < 0 ∨ 65536 ≤ p
    · have hpf : portFails (stripFalsy l) = true := by
        simp [portFails, hget, htr, connParamValid, jsToNumber]
        omega
      rw [driverFactory_obj_portfail _ _ _ _ _ hne hpf, hget]
      simp [hr]
    · have hval : connParamValid (.vNum p) = true := by
        simp [connParamValid, jsToNumber]
        omega
      have hpf : portFails (stripFalsy l) = false := by
        simp [portFails, hget, htr, hval]
      rw [driverFactory_obj _ _ _ _ _ hne hpf, applySwitch_postgres]
      simp [hdeps, hr]

/-- Witness for C6: port 70000 is rejected with the fail-closed
port-validation handle. -/
theorem claim_C6_port_validation_witness :
    driverFactory demoDeps demoImportErr demoParseFail
      { dbParams := .vObj [("host", .vStr "h"), ("port", .vNum 70000)],
        dbType := "postgres" } =
      .failClosed (connParamValidMsg (.vNum 70000)) :=
  (claim_C6_port_validation [("host", .vStr "h"), ("port", .vNum 70000)]
    70000 demoDeps demoImportErr demoParseFail
    (by simp) (by rfl) (by rfl)).mpr (by omega)

/-- C8: for dbType `druid` or `ksql` with a (present, hence non-empty)
host string and an in-range non-zero port, the resulting config's
`url` equals `scheme://host:port`, where the scheme is the host's own
`http://`/`https://` scheme when it has one and defaults to `http`
otherwise. -/
theorem claim_C8_url_composition (h : String) (p : Int)
    (deps : String → Bool) (importErr : String → String)
    (jsonParse : String → Except String JSValue)
    (hh : h ≠ "") (hp0 : 0 < p) (hp1 : p < 65536)
    (hdd : deps "druid" = true) (hdk : deps "ksql" = true) :
    driverFactory deps importErr jsonParse
        { dbParams := .vObj [("host", .vStr h), ("port", .vNum p)],
          dbType := "druid" } =
      .okDriver "druid"
        [("host", .vStr h), ("port", .vNum p),
         ("url", .vStr ((if strStartsWith h "http://" || strStartsWith h "https://"
                         then h else "http://" ++ h) ++ ":" ++ toString p))]
    ∧ driverFactory deps importErr jsonParse
        { dbParams := .vObj [("host", .vStr h), ("port", .vNum p)],
          dbType := "ksql" } =
      .okDriver "ksql"
        [("host", .vStr h), ("port", .vNum p),
         ("url", .vStr ((if strStartsWith h "http://" || strStartsWith h "https://"
                         then h else "http://" ++ h) ++ ":" ++ toString p))] := by
  have hz : p ≠ 0 := by omega
  have hie : h.isEmpty = false :=
    Bool.eq_false_iff.mpr (fun he => hh ((String.isEmpty_iff h).mp he))
  have hbne : (p != 0) = true := by simp [hz]
  have hsl : stripFalsy [("host", .vStr h), ("port", .vNum p)] =
      [("host", .vStr h), ("port", .vNum p)] := by
    simp [stripFalsy, truthy, hie, hbne]
  have hget : getField [("host", .vStr h), ("port", .vNum p)] "port" = .vNum p := rfl
  have hval : connParamValid (.vNum p) = true := by
    simp [connParamValid, jsToNumber]
    omega
  have hpf : portFails (stripFalsy [("host", .vStr h), ("port", .vNum p)]) = false := by
    rw [hsl]
    simp only [portFails, hget, hval]
    simp
  have hmk : makeUrl h (.vNum p) =
      (if strStartsWith h "http://" || strStartsWith h "https://"
       then h else "http://" ++ h) ++ ":" ++ toString p := by
    cases hA : strStartsWith h "http://" <;> cases hB : strStartsWith h "https://" <;>
      simp [makeUrl, addHttpScheme, joinElemStr, jsToString, hA, hB]
  refine ⟨?_, ?_⟩
  · rw [driverFactory_obj _ _ _ _ _ (List.cons_ne_nil _ _) hpf, hsl,
      applySwitch_druid, urlStep_literal]
    simp [hdd, hmk]
  · rw [driverFactory_obj _ _ _ _ _ (List.cons_ne_nil _ _) hpf, hsl,
      applySwitch_ksql, urlStep_literal]
    simp [hdk, hmk]

/-- Witness for C8: host `myhost` (no scheme) and port 8082 yield the
url `http://myhost:8082`. -/
theorem claim_C8_url_composition_witness :
    driverFactory demoDeps demoImportErr demoParseFail
      { dbParams := .vObj [("host", .vStr "myhost"), ("port", .vNum 8082)],
        dbType := "druid" } =
      .okDriver "druid"
        [("host", .vStr "myhost"), ("port", .vNum 8082),
         ("url", .vStr "http://myhost:8082")] := by
  have hmain := (claim_C8_url_composition "myhost" 8082 demoDeps demoImportErr
    demoParseFail (by decide) (by omega) (by omega) rfl rfl).1
  rw [hmain]
  rfl
